import Mathlib

/-!
Shallow embedding of the HR LINE-bot webhook handler (src/server.py).

The per-event body of the webhook function, together with its helper
functions (is_cancel_word, is_quit_trigger, is_cancel_flow_trigger,
is_valid_staff_id, is_valid_iso_date, is_hr_user, parse_hr_command,
find_faq, detect_language), is translated into executable Lean
definitions.  Network I/O is abstracted: the Apps-Script gateway
(call_apps_script) is passed in as an oracle from payloads to parsed
results, and outbound replies plus gateway invocations are collected in
the returned StepResult.  The mutable module-level USER_STATE dict is
explicit state (a key/value list observed only through lookup).

Modelling conventions, noted once here:
 - Python str.strip() is modelled by pyStrip (drop whitespace at both
   ends); str.lower() by pyLower (ASCII case fold - every string the
   claims exercise is ASCII or Japanese, which Python lower also leaves
   unchanged).
 - The regex token for a digit is modelled as an ASCII decimal digit.
 - A missing source userId or replyToken is modelled as the empty
   string, which flows through every truthiness test exactly as None
   does in the source.
 - Reading a dict key that the source accesses with .get(k, default)
   is modelled with Option.getD; session fields are Option String.
 - The parsed JSON result of the gateway is modelled as a Bool (the
   truthiness of result.get with key ok) plus a string-keyed field list.
-/

/-- Drop leading and trailing whitespace characters, as str.strip(). -/
def pyStripList (l : List Char) : List Char :=
  ((l.dropWhile Char.isWhitespace).reverse.dropWhile Char.isWhitespace).reverse

def pyStrip (s : String) : String := ⟨pyStripList s.data⟩

/-- ASCII lowercase of one character, as used by str.lower() on the
vocabulary this program compares against. -/
def lowerChar (c : Char) : Char :=
  if 65 ≤ c.toNat ∧ c.toNat ≤ 90 then Char.ofNat (c.toNat + 32) else c

def pyLower (s : String) : String := ⟨s.data.map lowerChar⟩

/-- str.startswith. -/
def startsWithS (s p : String) : Bool := p.data.isPrefixOf s.data

/-- Substring containment, as the Python expression (needle in hay). -/
def containsSub : List Char → List Char → Bool
  | n, [] => n.isEmpty
  | n, c :: rest => n.isPrefixOf (c :: rest) || containsSub n rest

def substrOf (needle hay : String) : Bool := containsSub needle.data hay.data

/-- str.split() with no argument: split on whitespace runs, no empty parts. -/
def splitWsAux : List Char → List Char → List String
  | [], acc => if acc.isEmpty then [] else [⟨acc.reverse⟩]
  | c :: rest, acc =>
    if c.isWhitespace then
      if acc.isEmpty then splitWsAux rest [] else ⟨acc.reverse⟩ :: splitWsAux rest []
    else splitWsAux rest (c :: acc)

def pySplitWs (s : String) : List String := splitWsAux s.data []

/-- str.split on a comma separator: keeps empty parts. -/
def splitCommaAux : List Char → List Char → List String
  | [], acc => [⟨acc.reverse⟩]
  | c :: rest, acc =>
    if c = ',' then ⟨acc.reverse⟩ :: splitCommaAux rest []
    else splitCommaAux rest (c :: acc)

def pySplitComma (s : String) : List String := splitCommaAux s.data []

/-- Join with single spaces, as a space-join of the word list. -/
def joinSpace : List String → String
  | [] => ""
  | [x] => x
  | x :: y :: rest => x ++ " " ++ joinSpace (y :: rest)

/-- One ASCII decimal digit. -/
def isDig (c : Char) : Bool := decide (48 ≤ c.toNat ∧ c.toNat ≤ 57)

/-- Key lookup in a string-keyed association list (dict observation). -/
def lookupKV {β : Type} : List (String × β) → String → Option β
  | [], _ => none
  | (k, v) :: rest, u => if k = u then some v else lookupKV rest u

-- -------------------------------
-- Validators and classifiers (src/server.py lines 129-191)
-- -------------------------------

/-- is_quit_trigger: stripped, lowered text equals a quit trigger word. -/
def is_quit_trigger (text : String) : Bool :=
  let t := pyLower (pyStrip text)
  t == "quit" || t == "resign" || t == "退職" || t == "辞める" || t == "やめる"

/-- is_cancel_flow_trigger: stripped, lowered text equals a
cancel-existing-request trigger phrase. -/
def is_cancel_flow_trigger (text : String) : Bool :=
  let t := pyLower (pyStrip text)
  t == "退職申請キャンセル" || t == "退職キャンセル" ||
  t == "cancel quit" || t == "cancel quit request"

/-- is_cancel_word: stripped, lowered text equals a cancel word. -/
def is_cancel_word (text : String) : Bool :=
  let t := pyLower (pyStrip text)
  t == "cancel" || t == "キャンセル" || t == "中止" || t == "やめる"

/-- is_valid_staff_id: 3 to 6 digits, anchored both ends, on stripped text. -/
def is_valid_staff_id (text : String) : Bool :=
  let s := (pyStrip text).data
  decide (3 ≤ s.length) && decide (s.length ≤ 6) && s.all isDig

/-- is_valid_iso_date: exactly the shape of four digits, a dash, two
digits, a dash, two digits, on stripped text. -/
def is_valid_iso_date (text : String) : Bool :=
  match (pyStrip text).data with
  | [y1, y2, y3, y4, s1, m1, m2, s2, d1, d2] =>
    isDig y1 && isDig y2 && isDig y3 && isDig y4 && (s1 == '-') &&
    isDig m1 && isDig m2 && (s2 == '-') && isDig d1 && isDig d2
  | _ => false

/-- is_hr_user: membership in the comma-separated allow-list from the
environment; an empty (stripped) allow-list authorizes no one. -/
def is_hr_user (hrAllow : String) (line_user_id : String) : Bool :=
  let allow := pyStrip hrAllow
  if allow = "" then false
  else (((pySplitComma allow).map pyStrip).filter (fun x => x != "")).contains line_user_id

/-- The admin-command detection of the webhook: lowered text starts with
one of the three verb-plus-space forms. -/
def adminPrefixed (t : String) : Bool :=
  startsWithS (pyLower t) "approve " || startsWithS (pyLower t) "reject " ||
  startsWithS (pyLower t) "cancel "

/-- parse_hr_command: split on whitespace; need a verb and a request id;
the verb is lowered and must be approve, reject or cancel; the rest is
the comment. -/
def parse_hr_command (text : String) : Option (String × String × String) :=
  let parts := pySplitWs (pyStrip text)
  match parts with
  | cmd0 :: reqId0 :: rest =>
    let cmd := pyLower cmd0
    let reqId := pyStrip reqId0
    let comment := pyStrip (joinSpace rest)
    if cmd = "approve" ∨ cmd = "reject" ∨ cmd = "cancel" then
      if reqId = "" then none else some (cmd, reqId, comment)
    else none
  | _ => none

/-- The action_map dict of the admin branch, defined on parse output. -/
def actionOf (cmd : String) : String :=
  if cmd = "approve" then "approveQuittingRequest"
  else if cmd = "reject" then "rejectQuittingRequest"
  else "cancelRequestById"

-- -------------------------------
-- FAQ model (src/server.py lines 46-63)
-- -------------------------------

/-- One Japanese-script character per the regex character class used by
detect_language: hiragana, katakana, or the CJK range. -/
def isJpChar (c : Char) : Bool :=
  decide ((0x3041 ≤ c.toNat ∧ c.toNat ≤ 0x3093) ∨
          (0x30A1 ≤ c.toNat ∧ c.toNat ≤ 0x30F3) ∨
          (0x4E00 ≤ c.toNat ∧ c.toNat ≤ 0x9FAF))

def detect_language (text : String) : String :=
  if text.data.any isJpChar then "jp" else "en"

structure FaqEntry where
  key : String
  en_q : String
  en_a : String
  jp_q : String
  jp_a : String
deriving DecidableEq

def answerFor (it : FaqEntry) (lang : String) : String :=
  if lang = "jp" then it.jp_a else it.en_a

def questionFor (it : FaqEntry) (lang : String) : String :=
  if lang = "jp" then it.jp_q else it.en_q

/-- The loop body of find_faq over the FAQ table, on the lowered text. -/
def find_faq_go (t lang : String) : List FaqEntry → Option String
  | [] => none
  | it :: rest =>
    let keys := (pySplitComma it.key).map pyStrip
    if keys.any (fun k => (k != "") && substrOf k t) then some (answerFor it lang)
    else
      let q := pyStrip (pyLower (questionFor it lang))
      if (q != "") && substrOf q t then some (answerFor it lang)
      else find_faq_go t lang rest

def find_faq (FAQ : List FaqEntry) (text : String) : Option String :=
  find_faq_go (pyLower text) (detect_language text) FAQ

-- -------------------------------
-- Sessions, store, events (src/server.py lines 127, 197-221)
-- -------------------------------

inductive Step
  | Q_WAIT_STAFFID
  | Q_WAIT_DATE
  | Q_WAIT_REASON
  | Q_WAIT_COMMENT
  | Q_CONFIRM
  | CANCEL_WAIT_STAFFID
  | CANCEL_CONFIRM
deriving DecidableEq

/-- One per-user USER_STATE dict entry; absent keys are none. -/
structure Session where
  step : Step
  staff_id : Option String
  quitting_date : Option String
  reason : Option String
  comment : Option String
deriving DecidableEq

/-- USER_STATE, observed only through key lookup. -/
def Store := List (String × Session)
deriving DecidableEq

def lookupS : Store → String → Option Session
  | [], _ => none
  | (k, v) :: rest, u => if k = u then some v else lookupS rest u

/-- USER_STATE.pop for a key. -/
def eraseS (s : Store) (u : String) : Store := s.filter (fun p => p.1 != u)

/-- USER_STATE key assignment (covers both fresh insert and update). -/
def setS (s : Store) (u : String) (v : Session) : Store := (u, v) :: eraseS s u

/-- One inbound text-message LINE event, already known to be of message
type text; empty strings model absent userId and replyToken. -/
structure Event where
  sourceType : String
  userId : String
  text : String
  replyToken : String
deriving DecidableEq

/-- A reply_text or reply_text_quick call (text plus quick-reply labels). -/
inductive OutMsg
  | plain (text : String)
  | quick (text : String) (options : List String)
deriving DecidableEq

/-- A call_apps_script payload, the JSON dict passed to the gateway. -/
def Payload := List (String × String)
deriving DecidableEq

/-- The parsed dict a call_apps_script invocation yields: ok is the
truthiness of the ok field, other fields are looked up by key. -/
structure GResult where
  ok : Bool
  fields : List (String × String)

def GResult.getS (r : GResult) (k d : String) : String :=
  (lookupKV r.fields k).getD d

/-- Effect of handling one event: new USER_STATE, replies sent through
the reply token, and gateway payloads invoked, in order. -/
structure StepResult where
  store : Store
  replies : List OutMsg
  calls : List Payload
deriving DecidableEq

-- -------------------------------
-- Fixed texts (copied verbatim from src/server.py)
-- -------------------------------

def msgCancelled : String := "キャンセルしました。\nCancelled."
def msgNotAuthorized : String := "権限がありません（HRのみ）。\nNot authorized (HR only)."
def msgHrUsage : String :=
  "コマンド形式：\napprove <RequestID>\nreject <RequestID> <comment>\ncancel <RequestID> <comment>"
def msgCancelFlowStart : String := "退職申請のキャンセルをします。\n社員番号（例：2338）を入力してください。"
def msgStaffIdErrCancel : String := "社員番号の形式が正しくありません。例：2338"
def msgCancelConfirmQ : String := "最新の退職申請（New/InReview）をキャンセルしますか？"
def msgChooseButton : String := "ボタンから選択してください。"
def msgNoChanges : String := "キャンセルしませんでした。\nNo changes made."
def msgCancelLatestOk : String := "最新の退職申請をキャンセルしました。\nCancelled your latest quitting request."
def msgCancelLatestFail : String := "キャンセルに失敗しました。HRへご連絡ください。\nFailed. Please contact HR."
def msgQuitStart : String :=
  "退職日申請を開始します。\n社員番号（例：2338）を入力してください。\n\nStarting quitting date request.\nPlease enter your Staff ID (e.g., 2338)."
def msgStaffIdErrQuit : String := "社員番号の形式が正しくありません。例：2338\n\nStaff ID example: 2338"
def msgDatePrompt : String :=
  "退職希望日（最後の勤務日）を入力してください。\n形式：YYYY-MM-DD\n例：2026-03-31\n\nEnter quitting date.\nFormat: YYYY-MM-DD (e.g., 2026-03-31)"
def msgDateErr : String := "日付形式が正しくありません。例：2026-03-31\n\nExample: 2026-03-31"
def msgReasonPrompt : String := "退職理由を選んでください（Choose a reason）"
def msgCommentPrompt : String :=
  "補足コメントがあれば入力してください（なければ「なし」）。\n\nOptional comment (or type 'none')."
def msgSubmitFail : String :=
  "システム登録でエラーが発生しました。HRへご連絡ください。\n\nSystem error saving it. Please contact HR."
def msgJpFallback : String := "申し訳ありません。その質問は人事に転送されました。"
def msgEnFallback : String := "Sorry, HR will follow up on this."

def msgSubmitOk (rid : String) : String :=
  "申請を受け付けました。HRよりご連絡します。\n受付番号: " ++ rid ++
  "\n\nYour request has been received. HR will review and contact you."

def confirmSummary (sid d r : String) : String :=
  "以下で申請します。\nStaffID: " ++ sid ++ "\n退職日: " ++ d ++ "\n理由: " ++ r ++
  "\n\n送信しますか？"

def confirmSummaryC (sid d r c : String) : String :=
  "以下で申請します。\nStaffID: " ++ sid ++ "\n退職日: " ++ d ++ "\n理由: " ++ r ++
  "\nコメント: " ++ (if c = "" then "(なし)" else c) ++ "\n\n送信しますか？"

def REASON_JP : List String :=
  ["転職（Job change）", "家庭都合（Family）", "学業（Study）", "健康（Health）",
   "契約満了（End of contract）", "その他（Other）"]

def REASON_MAP : List (String × String) :=
  [("転職（Job change）", "Job change"), ("家庭都合（Family）", "Family reasons"),
   ("学業（Study）", "Study"), ("健康（Health）", "Health"),
   ("契約満了（End of contract）", "End of contract"), ("その他（Other）", "Other")]

def freshCancelSession : Session := ⟨Step.CANCEL_WAIT_STAFFID, none, none, none, none⟩
def freshQuitSession : Session := ⟨Step.Q_WAIT_STAFFID, none, none, none, none⟩

def submitPayload (uid : String) (st : Session) : Payload :=
  [("action", "createQuittingRequest"), ("lineUserId", uid),
   ("staffId", st.staff_id.getD ""), ("quittingDate", st.quitting_date.getD ""),
   ("reason", st.reason.getD ""), ("comment", st.comment.getD "")]

/-- The comment normalization of the Q_WAIT_COMMENT branch: the four
none-equivalent tokens (case-folded) become the empty comment, any other
text is kept verbatim. -/
def commentOf (t : String) : String :=
  if pyLower t == "none" || pyLower t == "なし" || pyLower t == "無し" || pyLower t == "no"
  then "" else t

-- -------------------------------
-- The webhook per-event handler (src/server.py lines 197-419)
-- -------------------------------

/-- Fallback replies of the FAQ section: the found answer if truthy,
else the language-dependent apology. -/
def langFallback (t : String) : List OutMsg :=
  if detect_language t = "jp" then [OutMsg.plain msgJpFallback]
  else [OutMsg.plain msgEnFallback]

def faqReplies (faq : List FaqEntry) (t : String) : List OutMsg :=
  match find_faq faq t with
  | some a => if a = "" then langFallback t else [OutMsg.plain a]
  | none => langFallback t

/-- The Q_WAIT_REASON branch after the REASON_MAP lookup. -/
def reasonBranch (store : Store) (uid : String) (st : Session) :
    Option String → StepResult
  | none => ⟨store, [OutMsg.plain msgChooseButton], []⟩
  | some reason =>
    if reason = "Other" then
      ⟨setS store uid { st with reason := some reason, step := Step.Q_WAIT_COMMENT },
       [OutMsg.plain msgCommentPrompt], []⟩
    else
      ⟨setS store uid { st with reason := some reason, comment := some "", step := Step.Q_CONFIRM },
       [OutMsg.quick (confirmSummary (st.staff_id.getD "") (st.quitting_date.getD "") reason)
          ["送信（Submit）", "キャンセル（Cancel）"]], []⟩

/-- The continue-quitting-flow section, dispatched on the step tag. -/
def stepHandler (faq : List FaqEntry) (gw : Payload → GResult) (store : Store)
    (uid t : String) (st : Session) : Step → StepResult
  | Step.Q_WAIT_STAFFID =>
    if is_valid_staff_id t = false then ⟨store, [OutMsg.plain msgStaffIdErrQuit], []⟩
    else ⟨setS store uid { st with staff_id := some t, step := Step.Q_WAIT_DATE },
          [OutMsg.plain msgDatePrompt], []⟩
  | Step.Q_WAIT_DATE =>
    if is_valid_iso_date t = false then ⟨store, [OutMsg.plain msgDateErr], []⟩
    else ⟨setS store uid { st with quitting_date := some t, step := Step.Q_WAIT_REASON },
          [OutMsg.quick msgReasonPrompt (REASON_JP ++ ["キャンセル（Cancel）"])], []⟩
  | Step.Q_WAIT_REASON =>
    if t = "キャンセル（Cancel）" ∨ is_cancel_word t = true then
      ⟨eraseS store uid, [OutMsg.plain msgCancelled], []⟩
    else reasonBranch store uid st (lookupKV REASON_MAP t)
  | Step.Q_WAIT_COMMENT =>
    let comment := commentOf t
    ⟨setS store uid { st with comment := some comment, step := Step.Q_CONFIRM },
     [OutMsg.quick
        (confirmSummaryC (st.staff_id.getD "") (st.quitting_date.getD "")
          (st.reason.getD "") comment)
        ["送信（Submit）", "キャンセル（Cancel）"]], []⟩
  | Step.Q_CONFIRM =>
    if t = "キャンセル（Cancel）" ∨ is_cancel_word t = true then
      ⟨eraseS store uid, [OutMsg.plain msgCancelled], []⟩
    else if t ≠ "送信（Submit）" then ⟨store, [OutMsg.plain msgChooseButton], []⟩
    else
      let payload := submitPayload uid st
      let result := gw payload
      ⟨eraseS store uid,
       [OutMsg.plain
          (if result.ok then msgSubmitOk (result.getS "requestId" "") else msgSubmitFail)],
       [payload]⟩
  -- a session in a cancellation-flow step never reaches this section in
  -- the source (earlier branches catch it); the source would fall
  -- through to the FAQ section, which is reproduced here
  | Step.CANCEL_WAIT_STAFFID => ⟨store, faqReplies faq t, []⟩
  | Step.CANCEL_CONFIRM => ⟨store, faqReplies faq t, []⟩

/-- The branches from the cancel-existing-request continuation onward,
dispatched on whether the sender has an open session. -/
def dispatchSession (faq : List FaqEntry) (gw : Payload → GResult) (store : Store)
    (uid t : String) : Option Session → StepResult
  | some st =>
    if uid ≠ "" ∧ st.step = Step.CANCEL_WAIT_STAFFID then
      if is_valid_staff_id t = false then ⟨store, [OutMsg.plain msgStaffIdErrCancel], []⟩
      else ⟨setS store uid { st with staff_id := some t, step := Step.CANCEL_CONFIRM },
            [OutMsg.quick msgCancelConfirmQ ["はい（Yes）", "いいえ（No）"]], []⟩
    else if uid ≠ "" ∧ st.step = Step.CANCEL_CONFIRM then
      if t ≠ "はい（Yes）" ∧ t ≠ "いいえ（No）" then
        ⟨store, [OutMsg.plain msgChooseButton], []⟩
      else if t = "いいえ（No）" then
        ⟨eraseS store uid, [OutMsg.plain msgNoChanges], []⟩
      else
        let payload : Payload :=
          [("action", "cancelLatestQuittingRequest"), ("lineUserId", uid),
           ("staffId", st.staff_id.getD ""), ("hrComment", "Cancelled by staff via LINE")]
        let result := gw payload
        ⟨eraseS store uid,
         [OutMsg.plain (if result.ok then msgCancelLatestOk else msgCancelLatestFail)],
         [payload]⟩
    else if uid ≠ "" ∧ is_quit_trigger t = true then
      ⟨setS store uid freshQuitSession, [OutMsg.plain msgQuitStart], []⟩
    else if uid ≠ "" then stepHandler faq gw store uid t st st.step
    else ⟨store, faqReplies faq t, []⟩
  | none =>
    if uid ≠ "" ∧ is_quit_trigger t = true then
      ⟨setS store uid freshQuitSession, [OutMsg.plain msgQuitStart], []⟩
    else ⟨store, faqReplies faq t, []⟩

/-- The webhook body for one effective text (after the reply-token,
empty-text and group-prefix gates), in source order: global cancel,
admin commands, cancel-flow trigger, then the session-dependent part. -/
def route (faq : List FaqEntry) (hrAllow : String) (gw : Payload → GResult)
    (store : Store) (uid t : String) : StepResult :=
  if uid ≠ "" ∧ (lookupS store uid).isSome = true ∧ is_cancel_word t = true then
    ⟨eraseS store uid, [OutMsg.plain msgCancelled], []⟩
  else if adminPrefixed t = true then
    if uid = "" ∨ is_hr_user hrAllow uid = false then
      ⟨store, [OutMsg.plain msgNotAuthorized], []⟩
    else
      match parse_hr_command t with
      | none => ⟨store, [OutMsg.plain msgHrUsage], []⟩
      | some (cmd, reqId, comment) =>
        let payload : Payload :=
          [("action", actionOf cmd), ("requestId", reqId),
           ("hrLineUserId", uid), ("hrComment", comment)]
        let result := gw payload
        ⟨store,
         [OutMsg.plain
            (if result.ok then "OK: " ++ cmd ++ " " ++ reqId
             else "NG: " ++ result.getS "error" "None" ++ "\n" ++ result.getS "detail" "")],
         [payload]⟩
  else if uid ≠ "" ∧ is_cancel_flow_trigger t = true then
    ⟨setS store uid freshCancelSession, [OutMsg.plain msgCancelFlowStart], []⟩
  else dispatchSession faq gw store uid t (lookupS store uid)

/-- The gates of the webhook before any routing: a falsy reply token or
falsy stripped text skips the event; a non-user source requires the
case-insensitive activation marker and gets it sliced off and the rest
stripped. Returns the effective text, or none when the event is skipped. -/
def preprocess (e : Event) : Option String :=
  let t := pyStrip e.text
  if e.replyToken = "" ∨ t = "" then none
  else if e.sourceType ≠ "user" then
    if startsWithS (pyLower t) "!hr" then some (pyStrip ⟨t.data.drop 3⟩) else none
  else some t

def dispatch (faq : List FaqEntry) (hrAllow : String) (gw : Payload → GResult)
    (store : Store) (uid : String) : Option String → StepResult
  | none => ⟨store, [], []⟩
  | some t => route faq hrAllow gw store uid t

/-- Handling of one inbound text event by the webhook. -/
def handleEvent (faq : List FaqEntry) (hrAllow : String) (gw : Payload → GResult)
    (store : Store) (e : Event) : StepResult :=
  dispatch faq hrAllow gw store e.userId (preprocess e)

/-- The per-step rejection condition of the continuation branches: the
exact conditions under which the source answers with a format hint or a
button re-prompt and then continues without touching the session
(staff-id pattern at both staff-id steps, date pattern at the date step,
membership in the reason labels at the reason step, the two button
options at each confirmation step; the comment step rejects nothing). -/
def rejectsInput (st : Session) (t : String) : Bool :=
  match st.step with
  | Step.Q_WAIT_STAFFID => !(is_valid_staff_id t)
  | Step.Q_WAIT_DATE => !(is_valid_iso_date t)
  | Step.Q_WAIT_REASON =>
    decide (t ≠ "キャンセル（Cancel）") && (lookupKV REASON_MAP t).isNone
  | Step.Q_WAIT_COMMENT => false
  | Step.Q_CONFIRM => decide (t ≠ "キャンセル（Cancel）") && decide (t ≠ "送信（Submit）")
  | Step.CANCEL_WAIT_STAFFID => !(is_valid_staff_id t)
  | Step.CANCEL_CONFIRM => decide (t ≠ "はい（Yes）") && decide (t ≠ "いいえ（No）")

/-- The re-prompt text each step answers a rejected input with (the
comment step rejects nothing, so its entry is never used). -/
def repromptMsg : Step → String
  | Step.Q_WAIT_STAFFID => msgStaffIdErrQuit
  | Step.Q_WAIT_DATE => msgDateErr
  | Step.Q_WAIT_REASON => msgChooseButton
  | Step.Q_WAIT_COMMENT => ""
  | Step.Q_CONFIRM => msgChooseButton
  | Step.CANCEL_WAIT_STAFFID => msgStaffIdErrCancel
  | Step.CANCEL_CONFIRM => msgChooseButton

-- -------------------------------
-- Helper lemmas
-- -------------------------------

theorem lookupS_eraseS (store : Store) (u : String) :
    lookupS (eraseS store u) u = none := by
  induction store with
  | nil => rfl
  | cons p rest ih =>
    unfold eraseS at *
    by_cases h : p.1 = u
    · simp [List.filter, h, ih]
    · simp only [List.filter]
      rw [show (p.1 != u) = true by simp [h]]
      simpa [lookupS, h] using ih

theorem dropWhile_dropWhile (p : Char → Bool) (l : List Char) :
    (l.dropWhile p).dropWhile p = l.dropWhile p := by
  induction l with
  | nil => rfl
  | cons a l ih =>
    by_cases h : p a = true
    · simp [List.dropWhile_cons, h, ih]
    · simp [List.dropWhile_cons, h]

theorem dropWhile_rev_strip (p : Char → Bool) (A : List Char)
    (hA : A.dropWhile p = A) :
    (A.reverse.dropWhile p).reverse.dropWhile p = (A.reverse.dropWhile p).reverse := by
  have hdecomp : A = (A.reverse.dropWhile p).reverse ++ (A.reverse.takeWhile p).reverse := by
    have h1 : A.reverse.takeWhile p ++ A.reverse.dropWhile p = A.reverse :=
      List.takeWhile_append_dropWhile p A.reverse
    have h2 := congrArg List.reverse h1
    rw [List.reverse_append, List.reverse_reverse] at h2
    exact h2.symm
  cases hBr : (A.reverse.dropWhile p).reverse with
  | nil => simp
  | cons c tail =>
    rw [hBr] at hdecomp
    have hnpc : p c = false := by
      by_contra hpc
      have hpc' : p c = true := by simpa using hpc
      rw [hdecomp, List.cons_append, List.dropWhile_cons, hpc', if_pos rfl] at hA
      have hlen := congrArg List.length hA
      have hle : (List.dropWhile p (tail ++ (A.reverse.takeWhile p).reverse)).length ≤
          (tail ++ (A.reverse.takeWhile p).reverse).length :=
        (List.dropWhile_sublist p).length_le
      simp only [List.length_cons] at hlen
      omega
    rw [List.dropWhile_cons, hnpc]
    simp

theorem pyStripList_idem (l : List Char) :
    pyStripList (pyStripList l) = pyStripList l := by
  unfold pyStripList
  rw [dropWhile_rev_strip Char.isWhitespace (l.dropWhile Char.isWhitespace)
    (dropWhile_dropWhile Char.isWhitespace l)]
  rw [List.reverse_reverse]
  rw [dropWhile_dropWhile]

theorem pyStrip_idem (s : String) : pyStrip (pyStrip s) = pyStrip s := by
  unfold pyStrip
  exact congrArg String.mk (pyStripList_idem s.data)

/-- Every effective text that survives the gates is already stripped. -/
theorem preprocess_strip (e : Event) (t : String) (h : preprocess e = some t) :
    pyStrip t = t := by
  simp only [preprocess] at h
  by_cases h1 : e.replyToken = "" ∨ pyStrip e.text = ""
  · rw [if_pos h1] at h; cases h
  · rw [if_neg h1] at h
    by_cases h2 : e.sourceType ≠ "user"
    · rw [if_pos h2] at h
      by_cases h3 : startsWithS (pyLower (pyStrip e.text)) "!hr" = true
      · rw [if_pos h3] at h
        rw [← Option.some.inj h]
        exact pyStrip_idem _
      · rw [if_neg h3] at h; cases h
    · rw [if_neg h2] at h
      rw [← Option.some.inj h]
      exact pyStrip_idem _

/-- A stripped admin-prefixed text is never a cancel word: the cancel
vocabulary has no member beginning with one of the three verb-space
prefixes. -/
theorem adminPrefixed_not_cancel (t : String) (hs : pyStrip t = t)
    (h : adminPrefixed t = true) : is_cancel_word t = false := by
  cases hcw : is_cancel_word t with
  | false => rfl
  | true =>
    exfalso
    simp only [is_cancel_word] at hcw
    rw [hs] at hcw
    simp only [Bool.or_eq_true, beq_iff_eq] at hcw
    simp only [adminPrefixed] at h
    rcases hcw with ((h1 | h1) | h1) | h1 <;> rw [h1] at h <;> exact absurd h (by decide)

/-- A cancel-existing-request trigger phrase is never a cancel word. -/
theorem cancel_flow_trigger_not_cancel_word (t : String)
    (h : is_cancel_flow_trigger t = true) : is_cancel_word t = false := by
  simp only [is_cancel_flow_trigger] at h
  simp only [is_cancel_word]
  simp only [Bool.or_eq_true, beq_iff_eq] at h
  rcases h with ((h1 | h1) | h1) | h1 <;> rw [h1] <;> decide

theorem andSubstrEmpty (x : String) : ((x != "") && substrOf x "") = false := by
  cases x with
  | mk d =>
    cases d with
    | nil => rfl
    | cons c cs => simp [substrOf, containsSub]

/-- The FAQ lookup never matches the empty text: every key and question
is required to be nonempty before the containment test. -/
theorem find_faq_empty (faq : List FaqEntry) : find_faq faq "" = none := by
  show find_faq_go "" "en" faq = none
  induction faq with
  | nil => rfl
  | cons it rest ih =>
    simp only [find_faq_go]
    have hk : (((pySplitComma it.key).map pyStrip).any
        fun k => (k != "") && substrOf k "") = false := by
      rw [List.any_eq_false]
      intro k _
      rw [andSubstrEmpty]
      simp
    rw [hk]
    rw [andSubstrEmpty (pyStrip (pyLower (questionFor it "en")))]
    simpa using ih

theorem lookupS_setS (store : Store) (u : String) (v : Session) :
    lookupS (setS store u v) u = some v := by
  simp [setS, lookupS]

/-- Shared evaluation: an effective text equal to the submit button at a
confirmation-step session runs the gateway once with the collected
fields and removes the session, with the reply chosen by the gateway
result. -/
theorem submit_confirm_eval
    (faq : List FaqEntry) (hrAllow : String) (gw : Payload → GResult)
    (store : Store) (st : Session) (e : Event)
    (hu : e.userId ≠ "")
    (hpre : preprocess e = some "送信（Submit）")
    (hsess : lookupS store e.userId = some st)
    (hstep : st.step = Step.Q_CONFIRM) :
    handleEvent faq hrAllow gw store e =
      ⟨eraseS store e.userId,
       [OutMsg.plain (if (gw (submitPayload e.userId st)).ok
          then msgSubmitOk ((gw (submitPayload e.userId st)).getS "requestId" "")
          else msgSubmitFail)],
       [submitPayload e.userId st]⟩ := by
  unfold handleEvent
  rw [hpre]
  show route faq hrAllow gw store e.userId "送信（Submit）" = _
  unfold route
  have c1 : ¬ (e.userId ≠ "" ∧ (lookupS store e.userId).isSome = true ∧
      is_cancel_word "送信（Submit）" = true) := by
    rintro ⟨-, -, hc⟩
    exact absurd hc (by decide)
  have c2 : ¬ (adminPrefixed "送信（Submit）" = true) := by decide
  have c3 : ¬ (e.userId ≠ "" ∧ is_cancel_flow_trigger "送信（Submit）" = true) := by
    rintro ⟨-, hc⟩
    exact absurd hc (by decide)
  rw [if_neg c1, if_neg c2, if_neg c3, hsess]
  simp only [dispatchSession]
  have d1 : ¬ (e.userId ≠ "" ∧ st.step = Step.CANCEL_WAIT_STAFFID) := by
    rintro ⟨-, hc⟩
    rw [hstep] at hc
    cases hc
  have d2 : ¬ (e.userId ≠ "" ∧ st.step = Step.CANCEL_CONFIRM) := by
    rintro ⟨-, hc⟩
    rw [hstep] at hc
    cases hc
  have d3 : ¬ (e.userId ≠ "" ∧ is_quit_trigger "送信（Submit）" = true) := by
    rintro ⟨-, hc⟩
    exact absurd hc (by decide)
  rw [if_neg d1, if_neg d2, if_neg d3, if_pos hu, hstep]
  simp only [stepHandler]
  have e1 : ¬ ("送信（Submit）" = "キャンセル（Cancel）" ∨
      is_cancel_word "送信（Submit）" = true) := by decide
  have e2 : ¬ ("送信（Submit）" ≠ "送信（Submit）") := by decide
  rw [if_neg e1, if_neg e2]

-- -------------------------------
-- Claim theorems
-- -------------------------------

/-- Claim C1: for every user with an open session, in every dialogue
state (all quitting-flow steps and both cancellation-flow steps), an
inbound message whose effective text strips and case-folds to a cancel
word deletes that session from the store and produces exactly the
cancellation acknowledgment, superseding per-step input validation. -/
theorem C1_global_cancel_deletes_session
    (faq : List FaqEntry) (hrAllow : String) (gw : Payload → GResult)
    (store : Store) (st : Session) (e : Event) (t : String)
    (hu : e.userId ≠ "")
    (hpre : preprocess e = some t)
    (hsess : lookupS store e.userId = some st)
    (hcw : is_cancel_word t = true) :
    handleEvent faq hrAllow gw store e =
      ⟨eraseS store e.userId, [OutMsg.plain msgCancelled], []⟩ ∧
    lookupS (eraseS store e.userId) e.userId = none := by
  refine ⟨?_, lookupS_eraseS store e.userId⟩
  unfold handleEvent
  rw [hpre]
  show route faq hrAllow gw store e.userId t = _
  unfold route
  rw [if_pos ⟨hu, by rw [hsess]; rfl, hcw⟩]

/-- Witness for C1: the user at the date step sends the word cancel. -/
theorem C1_global_cancel_witness :
    handleEvent [] "" (fun _ => ⟨false, []⟩)
        [("U1", ⟨Step.Q_WAIT_DATE, some "2338", none, none, none⟩)]
        ⟨"user", "U1", "cancel", "tok"⟩ =
      ⟨eraseS [("U1", ⟨Step.Q_WAIT_DATE, some "2338", none, none, none⟩)] "U1",
       [OutMsg.plain msgCancelled], []⟩ ∧
    lookupS (eraseS [("U1", ⟨Step.Q_WAIT_DATE, some "2338", none, none, none⟩)] "U1")
      "U1" = none :=
  C1_global_cancel_deletes_session [] "" (fun _ => ⟨false, []⟩)
    [("U1", ⟨Step.Q_WAIT_DATE, some "2338", none, none, none⟩)]
    ⟨Step.Q_WAIT_DATE, some "2338", none, none, none⟩
    ⟨"user", "U1", "cancel", "tok"⟩ "cancel"
    (by decide) (by decide) (by decide) (by decide)

/-- Claim C3: submitting at the confirmation step always removes the
user's session, whatever the gateway outcome, and any failed outcome is
answered with the generic contact-HR failure message. -/
theorem C3_submit_always_clears_session
    (faq : List FaqEntry) (hrAllow : String) (gw : Payload → GResult)
    (store : Store) (st : Session) (e : Event)
    (hu : e.userId ≠ "")
    (hpre : preprocess e = some "送信（Submit）")
    (hsess : lookupS store e.userId = some st)
    (hstep : st.step = Step.Q_CONFIRM) :
    lookupS (handleEvent faq hrAllow gw store e).store e.userId = none ∧
    ((gw (submitPayload e.userId st)).ok = false →
      (handleEvent faq hrAllow gw store e).replies = [OutMsg.plain msgSubmitFail]) := by
  have hmain := submit_confirm_eval faq hrAllow gw store st e hu hpre hsess hstep
  constructor
  · rw [hmain]
    exact lookupS_eraseS store e.userId
  · intro hok
    rw [hmain]
    simp [hok]

/-- Witness for C3: a failing gateway result at the confirmation step. -/
theorem C3_submit_clears_witness :
    lookupS (handleEvent [] "" (fun _ => ⟨false, [("error", "REQUEST_FAILED")]⟩)
        [("U1", ⟨Step.Q_CONFIRM, some "2338", some "2026-03-31", some "Job change", some ""⟩)]
        ⟨"user", "U1", "送信（Submit）", "tok"⟩).store "U1" = none ∧
    ((false : Bool) = false →
      (handleEvent [] "" (fun _ => ⟨false, [("error", "REQUEST_FAILED")]⟩)
        [("U1", ⟨Step.Q_CONFIRM, some "2338", some "2026-03-31", some "Job change", some ""⟩)]
        ⟨"user", "U1", "送信（Submit）", "tok"⟩).replies = [OutMsg.plain msgSubmitFail]) :=
  C3_submit_always_clears_session [] "" (fun _ => ⟨false, [("error", "REQUEST_FAILED")]⟩)
    [("U1", ⟨Step.Q_CONFIRM, some "2338", some "2026-03-31", some "Job change", some ""⟩)]
    ⟨Step.Q_CONFIRM, some "2338", some "2026-03-31", some "Job change", some ""⟩
    ⟨"user", "U1", "送信（Submit）", "tok"⟩
    (by decide) (by decide) (by decide) rfl

/-- Claim C6: an empty or absent allow-list authorizes no sender, and an
admin-prefixed message from an unauthorized sender is answered with the
fixed bilingual denial, with no session change and no gateway call at
all, for every verb and request-id combination. -/
theorem C6_admin_unauthorized_fail_closed
    (faq : List FaqEntry) (hrAllow : String) (gw : Payload → GResult)
    (store : Store) (e : Event) (t : String)
    (hpre : preprocess e = some t)
    (hadm : adminPrefixed t = true)
    (hnauth : is_hr_user hrAllow e.userId = false) :
    (pyStrip hrAllow = "" → ∀ uid, is_hr_user hrAllow uid = false) ∧
    handleEvent faq hrAllow gw store e =
      ⟨store, [OutMsg.plain msgNotAuthorized], []⟩ := by
  constructor
  · intro hempty uid
    simp only [is_hr_user]
    rw [if_pos hempty]
  · have hcw : is_cancel_word t = false :=
      adminPrefixed_not_cancel t (preprocess_strip e t hpre) hadm
    unfold handleEvent
    rw [hpre]
    show route faq hrAllow gw store e.userId t = _
    unfold route
    have c1 : ¬ (e.userId ≠ "" ∧ (lookupS store e.userId).isSome = true ∧
        is_cancel_word t = true) := by
      rintro ⟨-, -, hc⟩
      rw [hcw] at hc
      cases hc
    rw [if_neg c1, if_pos hadm, if_pos (Or.inr hnauth)]

/-- Witness for C6: with an empty allow-list a sender with an open
session issues approve R1 and is denied before any gateway call. -/
theorem C6_admin_unauthorized_witness :
    (pyStrip "" = "" → ∀ uid, is_hr_user "" uid = false) ∧
    handleEvent [] "" (fun _ => ⟨true, []⟩)
        [("U1", ⟨Step.Q_WAIT_DATE, some "2338", none, none, none⟩)]
        ⟨"user", "U1", "approve R1", "tok"⟩ =
      ⟨[("U1", ⟨Step.Q_WAIT_DATE, some "2338", none, none, none⟩)],
       [OutMsg.plain msgNotAuthorized], []⟩ :=
  C6_admin_unauthorized_fail_closed [] "" (fun _ => ⟨true, []⟩)
    [("U1", ⟨Step.Q_WAIT_DATE, some "2338", none, none, none⟩)]
    ⟨"user", "U1", "approve R1", "tok"⟩ "approve R1"
    (by decide) (by decide) (by decide)

/-- Claim C10: an inbound text event without a userId never creates,
mutates or deletes any session and never calls the gateway; its only
possible answers are the state-free admin denial or the FAQ-fallback
replies for its effective text. -/
theorem C10_no_userid_store_untouched
    (faq : List FaqEntry) (hrAllow : String) (gw : Payload → GResult)
    (store : Store) (e : Event)
    (hu : e.userId = "") :
    (handleEvent faq hrAllow gw store e).store = store ∧
    (handleEvent faq hrAllow gw store e).calls = [] ∧
    ((handleEvent faq hrAllow gw store e).replies = [] ∨
     (handleEvent faq hrAllow gw store e).replies = [OutMsg.plain msgNotAuthorized] ∨
     ∃ t, preprocess e = some t ∧
       (handleEvent faq hrAllow gw store e).replies = faqReplies faq t) := by
  unfold handleEvent
  cases hpre : preprocess e with
  | none => exact ⟨rfl, rfl, Or.inl rfl⟩
  | some t =>
    simp only [dispatch]
    rw [hu]
    unfold route
    have c1 : ¬ (("" : String) ≠ "" ∧ (lookupS store "").isSome = true ∧
        is_cancel_word t = true) := by
      rintro ⟨hc, -, -⟩
      exact hc rfl
    rw [if_neg c1]
    by_cases hadm : adminPrefixed t = true
    · rw [if_pos hadm, if_pos (Or.inl rfl)]
      exact ⟨rfl, rfl, Or.inr (Or.inl rfl)⟩
    · rw [if_neg hadm]
      have c3 : ¬ (("" : String) ≠ "" ∧ is_cancel_flow_trigger t = true) := by
        rintro ⟨hc, -⟩
        exact hc rfl
      rw [if_neg c3]
      cases hlk : lookupS store "" with
      | none =>
        simp only [dispatchSession]
        rw [if_neg (by
          rintro ⟨hc, -⟩
          exact hc rfl)]
        exact ⟨rfl, rfl, Or.inr (Or.inr ⟨t, rfl, rfl⟩)⟩
      | some st =>
        simp only [dispatchSession]
        rw [if_neg (by
            rintro ⟨hc, -⟩
            exact hc rfl),
          if_neg (by
            rintro ⟨hc, -⟩
            exact hc rfl),
          if_neg (by
            rintro ⟨hc, -⟩
            exact hc rfl),
          if_neg (by
            intro hc
            exact hc rfl)]
        exact ⟨rfl, rfl, Or.inr (Or.inr ⟨t, rfl, rfl⟩)⟩

/-- Witness for C10: a direct message with no userId gets only the FAQ
fallback and the store stays exactly as it was. -/
theorem C10_no_userid_witness :
    (handleEvent [] "" (fun _ => ⟨true, []⟩)
        [("U1", ⟨Step.Q_WAIT_DATE, some "2338", none, none, none⟩)]
        ⟨"user", "", "hello", "tok"⟩).store =
      [("U1", ⟨Step.Q_WAIT_DATE, some "2338", none, none, none⟩)] ∧
    (handleEvent [] "" (fun _ => ⟨true, []⟩)
        [("U1", ⟨Step.Q_WAIT_DATE, some "2338", none, none, none⟩)]
        ⟨"user", "", "hello", "tok"⟩).calls = [] ∧
    ((handleEvent [] "" (fun _ => ⟨true, []⟩)
        [("U1", ⟨Step.Q_WAIT_DATE, some "2338", none, none, none⟩)]
        ⟨"user", "", "hello", "tok"⟩).replies = [] ∨
     (handleEvent [] "" (fun _ => ⟨true, []⟩)
        [("U1", ⟨Step.Q_WAIT_DATE, some "2338", none, none, none⟩)]
        ⟨"user", "", "hello", "tok"⟩).replies = [OutMsg.plain msgNotAuthorized] ∨
     ∃ t, preprocess ⟨"user", "", "hello", "tok"⟩ = some t ∧
       (handleEvent [] "" (fun _ => ⟨true, []⟩)
        [("U1", ⟨Step.Q_WAIT_DATE, some "2338", none, none, none⟩)]
        ⟨"user", "", "hello", "tok"⟩).replies = faqReplies [] t) :=
  C10_no_userid_store_untouched [] "" (fun _ => ⟨true, []⟩)
    [("U1", ⟨Step.Q_WAIT_DATE, some "2338", none, none, none⟩)]
    ⟨"user", "", "hello", "tok"⟩ rfl

/-- Claim C8: an input that fails the current step's validator (and is
not one of the globally intercepted vocabularies that never reach the
validators) is answered with that step's re-prompt and leaves the
session store completely unchanged: same step tag, no field stored,
nothing dropped, and no gateway call. -/
theorem C8_validation_failure_session_unchanged
    (faq : List FaqEntry) (hrAllow : String) (gw : Payload → GResult)
    (store : Store) (st : Session) (e : Event) (t : String)
    (hu : e.userId ≠ "")
    (hpre : preprocess e = some t)
    (hsess : lookupS store e.userId = some st)
    (hrej : rejectsInput st t = true)
    (hcw : is_cancel_word t = false)
    (hadm : adminPrefixed t = false)
    (hcf : is_cancel_flow_trigger t = false)
    (hqt : is_quit_trigger t = false) :
    handleEvent faq hrAllow gw store e =
      ⟨store, [OutMsg.plain (repromptMsg st.step)], []⟩ := by
  unfold handleEvent
  rw [hpre]
  show route faq hrAllow gw store e.userId t = _
  unfold route
  have c1 : ¬ (e.userId ≠ "" ∧ (lookupS store e.userId).isSome = true ∧
      is_cancel_word t = true) := by
    rintro ⟨-, -, hc⟩
    rw [hcw] at hc
    cases hc
  have c2 : ¬ (adminPrefixed t = true) := by
    rw [hadm]
    exact Bool.false_ne_true
  have c3 : ¬ (e.userId ≠ "" ∧ is_cancel_flow_trigger t = true) := by
    rintro ⟨-, hc⟩
    rw [hcf] at hc
    cases hc
  rw [if_neg c1, if_neg c2, if_neg c3, hsess]
  simp only [dispatchSession]
  have d3 : ¬ (e.userId ≠ "" ∧ is_quit_trigger t = true) := by
    rintro ⟨-, hc⟩
    rw [hqt] at hc
    cases hc
  obtain ⟨stp, sid, qd, rs, cm⟩ := st
  cases stp with
  | Q_WAIT_STAFFID =>
    simp only [rejectsInput] at hrej
    rw [Bool.not_eq_eq_eq_not, Bool.not_true] at hrej
    rw [if_neg (by rintro ⟨-, hc⟩; cases hc), if_neg (by rintro ⟨-, hc⟩; cases hc),
      if_neg d3, if_pos hu]
    simp only [stepHandler, repromptMsg]
    rw [if_pos hrej]
  | Q_WAIT_DATE =>
    simp only [rejectsInput] at hrej
    rw [Bool.not_eq_eq_eq_not, Bool.not_true] at hrej
    rw [if_neg (by rintro ⟨-, hc⟩; cases hc), if_neg (by rintro ⟨-, hc⟩; cases hc),
      if_neg d3, if_pos hu]
    simp only [stepHandler, repromptMsg]
    rw [if_pos hrej]
  | Q_WAIT_REASON =>
    simp only [rejectsInput, Bool.and_eq_true, decide_eq_true_eq,
      Option.isNone_iff_eq_none] at hrej
    obtain ⟨hne, hnone⟩ := hrej
    rw [if_neg (by rintro ⟨-, hc⟩; cases hc), if_neg (by rintro ⟨-, hc⟩; cases hc),
      if_neg d3, if_pos hu]
    simp only [stepHandler, repromptMsg]
    rw [if_neg (by
      rintro (hc | hc)
      · exact hne hc
      · rw [hcw] at hc; cases hc)]
    rw [hnone]
    simp only [reasonBranch]
  | Q_WAIT_COMMENT =>
    simp only [rejectsInput] at hrej
    cases hrej
  | Q_CONFIRM =>
    simp only [rejectsInput, Bool.and_eq_true, decide_eq_true_eq] at hrej
    obtain ⟨hne, hns⟩ := hrej
    rw [if_neg (by rintro ⟨-, hc⟩; cases hc), if_neg (by rintro ⟨-, hc⟩; cases hc),
      if_neg d3, if_pos hu]
    simp only [stepHandler, repromptMsg]
    rw [if_neg (by
      rintro (hc | hc)
      · exact hne hc
      · rw [hcw] at hc; cases hc)]
    rw [if_pos hns]
  | CANCEL_WAIT_STAFFID =>
    simp only [rejectsInput] at hrej
    rw [Bool.not_eq_eq_eq_not, Bool.not_true] at hrej
    rw [if_pos ⟨hu, rfl⟩]
    simp only [repromptMsg]
    rw [if_pos hrej]
  | CANCEL_CONFIRM =>
    simp only [rejectsInput, Bool.and_eq_true, decide_eq_true_eq] at hrej
    obtain ⟨h1, h2⟩ := hrej
    rw [if_neg (by rintro ⟨-, hc⟩; cases hc), if_pos ⟨hu, rfl⟩]
    simp only [repromptMsg]
    rw [if_pos ⟨h1, h2⟩]

/-- Witness for C8: the malformed date 31-03-2026 at the date step. -/
theorem C8_validation_failure_witness :
    handleEvent [] "" (fun _ => ⟨true, []⟩)
        [("U1", ⟨Step.Q_WAIT_DATE, some "2338", none, none, none⟩)]
        ⟨"user", "U1", "31-03-2026", "tok"⟩ =
      ⟨[("U1", ⟨Step.Q_WAIT_DATE, some "2338", none, none, none⟩)],
       [OutMsg.plain (repromptMsg Step.Q_WAIT_DATE)], []⟩ :=
  C8_validation_failure_session_unchanged [] "" (fun _ => ⟨true, []⟩)
    [("U1", ⟨Step.Q_WAIT_DATE, some "2338", none, none, none⟩)]
    ⟨Step.Q_WAIT_DATE, some "2338", none, none, none⟩
    ⟨"user", "U1", "31-03-2026", "tok"⟩ "31-03-2026"
    (by decide) (by decide) (by decide) (by decide) (by decide) (by decide)
    (by decide) (by decide)

/-- Claim C2 counterexample: at the reason step with staff id 2338 and
date 2026-03-31 collected, the ordinal input 1 is NOT accepted as the
first reason: the handler re-presents the button prompt and the session
is byte-for-byte unchanged (still awaiting the reason, no reason
stored), contradicting acceptance of 1-based ordinals. -/
theorem C2_ordinal_rejected_counterexample :
    handleEvent [] "" (fun _ => ⟨false, []⟩)
        [("U1", ⟨Step.Q_WAIT_REASON, some "2338", some "2026-03-31", none, none⟩)]
        ⟨"user", "U1", "1", "tok"⟩ =
      ⟨[("U1", ⟨Step.Q_WAIT_REASON, some "2338", some "2026-03-31", none, none⟩)],
       [OutMsg.plain msgChooseButton], []⟩ ∧
    lookupS (handleEvent [] "" (fun _ => ⟨false, []⟩)
        [("U1", ⟨Step.Q_WAIT_REASON, some "2338", some "2026-03-31", none, none⟩)]
        ⟨"user", "U1", "1", "tok"⟩).store "U1" =
      some ⟨Step.Q_WAIT_REASON, some "2338", some "2026-03-31", none, none⟩ := by
  constructor <;> decide

/-- Claim C2 amended: at the reason step only the exact label text is
accepted; an input that resolves to no label and is not the cancel
option - in particular a 1-based ordinal such as 1 - re-presents the
option prompt with the session unchanged, while an exact non-Other label
stores the mapped reason and advances the session to confirmation. -/
theorem C2_reason_exact_label_only
    (faq : List FaqEntry) (hrAllow : String) (gw : Payload → GResult)
    (store : Store) (st : Session) (e e' : Event) (t t' r sid qd : String)
    (hu : e.userId ≠ "") (hu' : e'.userId = e.userId)
    (hpre : preprocess e = some t) (hpre' : preprocess e' = some t')
    (hsess : lookupS store e.userId = some st)
    (hstep : st.step = Step.Q_WAIT_REASON)
    (hsid : st.staff_id = some sid) (hqd : st.quitting_date = some qd)
    (hno : lookupKV REASON_MAP t = none) (hnc : t ≠ "キャンセル（Cancel）")
    (hcw : is_cancel_word t = false) (hadm : adminPrefixed t = false)
    (hcf : is_cancel_flow_trigger t = false) (hqt : is_quit_trigger t = false)
    (hyes : lookupKV REASON_MAP t' = some r) (hro : r ≠ "Other")
    (hcw' : is_cancel_word t' = false) (hadm' : adminPrefixed t' = false)
    (hcf' : is_cancel_flow_trigger t' = false) (hqt' : is_quit_trigger t' = false)
    (hnc' : t' ≠ "キャンセル（Cancel）") :
    handleEvent faq hrAllow gw store e = ⟨store, [OutMsg.plain msgChooseButton], []⟩ ∧
    handleEvent faq hrAllow gw store e' =
      ⟨setS store e.userId
         { st with reason := some r, comment := some "", step := Step.Q_CONFIRM },
       [OutMsg.quick (confirmSummary sid qd r) ["送信（Submit）", "キャンセル（Cancel）"]],
       []⟩ := by
  have reduce : ∀ (ev : Event) (s : String), ev.userId = e.userId → preprocess ev = some s →
      is_cancel_word s = false → adminPrefixed s = false →
      is_cancel_flow_trigger s = false → is_quit_trigger s = false →
      handleEvent faq hrAllow gw store ev =
        stepHandler faq gw store e.userId s st Step.Q_WAIT_REASON := by
    intro ev s hid hp hw ha hf hq
    unfold handleEvent
    rw [hp]
    show route faq hrAllow gw store ev.userId s = _
    rw [hid]
    unfold route
    rw [if_neg (by
        rintro ⟨-, -, hc⟩
        rw [hw] at hc
        cases hc),
      if_neg (by
        rw [ha]
        exact Bool.false_ne_true),
      if_neg (by
        rintro ⟨-, hc⟩
        rw [hf] at hc
        cases hc),
      hsess]
    simp only [dispatchSession]
    rw [if_neg (by
        rintro ⟨-, hc⟩
        rw [hstep] at hc
        cases hc),
      if_neg (by
        rintro ⟨-, hc⟩
        rw [hstep] at hc
        cases hc),
      if_neg (by
        rintro ⟨-, hc⟩
        rw [hq] at hc
        cases hc),
      if_pos hu, hstep]
  constructor
  · rw [reduce e t rfl hpre hcw hadm hcf hqt]
    simp only [stepHandler]
    rw [if_neg (by
        rintro (hc | hc)
        · exact hnc hc
        · rw [hcw] at hc
          cases hc),
      hno]
    simp only [reasonBranch]
  · rw [reduce e' t' hu' hpre' hcw' hadm' hcf' hqt']
    simp only [stepHandler]
    rw [if_neg (by
        rintro (hc | hc)
        · exact hnc' hc
        · rw [hcw'] at hc
          cases hc),
      hyes]
    simp only [reasonBranch]
    rw [if_neg hro, hsid, hqd]
    rfl

/-- Witness for amended C2: the ordinal 1 is re-prompted and the exact
first label is accepted, at the same reason-step session. -/
theorem C2_reason_exact_label_witness :
    handleEvent [] "" (fun _ => ⟨false, []⟩)
        [("U2", ⟨Step.Q_WAIT_REASON, some "4455", some "2026-04-01", none, none⟩)]
        ⟨"user", "U2", "1", "tok"⟩ =
      ⟨[("U2", ⟨Step.Q_WAIT_REASON, some "4455", some "2026-04-01", none, none⟩)],
       [OutMsg.plain msgChooseButton], []⟩ ∧
    handleEvent [] "" (fun _ => ⟨false, []⟩)
        [("U2", ⟨Step.Q_WAIT_REASON, some "4455", some "2026-04-01", none, none⟩)]
        ⟨"user", "U2", "転職（Job change）", "tok"⟩ =
      ⟨setS [("U2", ⟨Step.Q_WAIT_REASON, some "4455", some "2026-04-01", none, none⟩)] "U2"
         ⟨Step.Q_CONFIRM, some "4455", some "2026-04-01", some "Job change", some ""⟩,
       [OutMsg.quick (confirmSummary "4455" "2026-04-01" "Job change")
          ["送信（Submit）", "キャンセル（Cancel）"]],
       []⟩ :=
  C2_reason_exact_label_only [] "" (fun _ => ⟨false, []⟩)
    [("U2", ⟨Step.Q_WAIT_REASON, some "4455", some "2026-04-01", none, none⟩)]
    ⟨Step.Q_WAIT_REASON, some "4455", some "2026-04-01", none, none⟩
    ⟨"user", "U2", "1", "tok"⟩ ⟨"user", "U2", "転職（Job change）", "tok"⟩
    "1" "転職（Job change）" "Job change" "4455" "2026-04-01"
    (by decide) (by decide) (by decide) (by decide) (by decide) (by decide)
    (by decide) (by decide) (by decide) (by decide) (by decide) (by decide)
    (by decide) (by decide) (by decide) (by decide) (by decide) (by decide)
    (by decide) (by decide) (by decide)

/-- Claim C4 counterexample: a user mid quitting-flow (date step, staff
id 2338 collected) sends the cancellation-flow trigger; the open
quitting-request session is REPLACED by a fresh cancellation-flow
session, its step and collected staff id discarded - contradicting
non-interference. -/
theorem C4_cancel_flow_overwrites_counterexample :
    handleEvent [] "" (fun _ => ⟨false, []⟩)
        [("U1", ⟨Step.Q_WAIT_DATE, some "2338", none, none, none⟩)]
        ⟨"user", "U1", "退職申請キャンセル", "tok"⟩ =
      ⟨[("U1", freshCancelSession)], [OutMsg.plain msgCancelFlowStart], []⟩ ∧
    lookupS (handleEvent [] "" (fun _ => ⟨false, []⟩)
        [("U1", ⟨Step.Q_WAIT_DATE, some "2338", none, none, none⟩)]
        ⟨"user", "U1", "退職申請キャンセル", "tok"⟩).store "U1" ≠
      some ⟨Step.Q_WAIT_DATE, some "2338", none, none, none⟩ := by
  constructor <;> decide

/-- Claim C4 amended: a cancellation-of-existing-request trigger that
reaches its branch (the Japanese trigger phrases; the English cancel-dot
variants are captured earlier by the admin-command prefix test) always
REPLACES the sender's stored session - whatever was open, including a
mid-flight quitting request - with a fresh cancellation-flow session,
discarding the previous step and collected fields. -/
theorem C4_cancel_flow_trigger_replaces_session
    (faq : List FaqEntry) (hrAllow : String) (gw : Payload → GResult)
    (store : Store) (st : Session) (e : Event) (t : String)
    (hu : e.userId ≠ "")
    (hpre : preprocess e = some t)
    (_hsess : lookupS store e.userId = some st)
    (hcf : is_cancel_flow_trigger t = true)
    (hadm : adminPrefixed t = false) :
    handleEvent faq hrAllow gw store e =
      ⟨setS store e.userId freshCancelSession, [OutMsg.plain msgCancelFlowStart], []⟩ ∧
    lookupS (setS store e.userId freshCancelSession) e.userId = some freshCancelSession := by
  refine ⟨?_, lookupS_setS store e.userId freshCancelSession⟩
  have hcw : is_cancel_word t = false := cancel_flow_trigger_not_cancel_word t hcf
  unfold handleEvent
  rw [hpre]
  show route faq hrAllow gw store e.userId t = _
  unfold route
  rw [if_neg (by
      rintro ⟨-, -, hc⟩
      rw [hcw] at hc
      cases hc),
    if_neg (by
      rw [hadm]
      exact Bool.false_ne_true),
    if_pos ⟨hu, hcf⟩]

/-- Witness for amended C4: the second Japanese trigger phrase replaces
a session that sits at the reason step. -/
theorem C4_cancel_flow_trigger_witness :
    handleEvent [] "" (fun _ => ⟨false, []⟩)
        [("U3", ⟨Step.Q_WAIT_REASON, some "7788", some "2026-05-01", none, none⟩)]
        ⟨"user", "U3", "退職キャンセル", "tok"⟩ =
      ⟨setS [("U3", ⟨Step.Q_WAIT_REASON, some "7788", some "2026-05-01", none, none⟩)]
         "U3" freshCancelSession,
       [OutMsg.plain msgCancelFlowStart], []⟩ ∧
    lookupS (setS [("U3", ⟨Step.Q_WAIT_REASON, some "7788", some "2026-05-01", none, none⟩)]
        "U3" freshCancelSession) "U3" = some freshCancelSession :=
  C4_cancel_flow_trigger_replaces_session [] "" (fun _ => ⟨false, []⟩)
    [("U3", ⟨Step.Q_WAIT_REASON, some "7788", some "2026-05-01", none, none⟩)]
    ⟨Step.Q_WAIT_REASON, some "7788", some "2026-05-01", none, none⟩
    ⟨"user", "U3", "退職キャンセル", "tok"⟩ "退職キャンセル"
    (by decide) (by decide) (by decide) (by decide) (by decide)

/-- Claim C5 counterexample: a group message that is exactly the
activation marker yields empty effective text, yet it is NOT discarded:
with no open session it falls through to the FAQ fallback and a reply IS
sent (the English apology), contradicting that no reply of any kind is
sent. -/
theorem C5_bare_marker_replies_counterexample :
    (handleEvent [] "" (fun _ => ⟨false, []⟩) [] ⟨"group", "U1", "!hr", "tok"⟩).replies =
      [OutMsg.plain msgEnFallback] ∧
    (handleEvent [] "" (fun _ => ⟨false, []⟩) [] ⟨"group", "U1", "!hr", "tok"⟩).replies ≠
      [] := by
  constructor <;> decide

/-- Claim C5 amended: a group or room message that strips and
case-folds to exactly the activation marker passes the empty-text guard
(which runs before the marker is sliced off), so its empty effective
text is not discarded; for a sender with no open session it creates or
changes no session and is answered by the FAQ-fallback apology (the FAQ
table can never match empty text). -/
theorem C5_bare_marker_falls_through
    (faq : List FaqEntry) (hrAllow : String) (gw : Payload → GResult)
    (store : Store) (e : Event)
    (htok : e.replyToken ≠ "")
    (hgrp : e.sourceType ≠ "user")
    (hbare : pyLower (pyStrip e.text) = "!hr")
    (hnosess : lookupS store e.userId = none) :
    preprocess e = some "" ∧
    handleEvent faq hrAllow gw store e = ⟨store, [OutMsg.plain msgEnFallback], []⟩ := by
  have hlen : ((pyStrip e.text).data).length = 3 := by
    have h1 := congrArg String.data hbare
    have h2 := congrArg List.length h1
    simp only [pyLower, List.length_map] at h2
    exact h2.trans (by decide)
  have hne : pyStrip e.text ≠ "" := by
    intro h
    rw [h] at hlen
    exact absurd hlen (by decide)
  have hstart : startsWithS (pyLower (pyStrip e.text)) "!hr" = true := by
    rw [hbare]
    decide
  have hdrop : (pyStrip e.text).data.drop 3 = [] := by
    apply List.drop_eq_nil_of_le
    omega
  have hpre0 : preprocess e = some "" := by
    simp only [preprocess]
    rw [if_neg (by
        rintro (h | h)
        · exact htok h
        · exact hne h),
      if_pos hgrp, if_pos hstart, hdrop]
    decide
  refine ⟨hpre0, ?_⟩
  unfold handleEvent
  rw [hpre0]
  show route faq hrAllow gw store e.userId "" = _
  unfold route
  rw [if_neg (by
      rintro ⟨-, -, hc⟩
      exact absurd hc (by decide)),
    if_neg (by decide),
    if_neg (by
      rintro ⟨-, hc⟩
      exact absurd hc (by decide)),
    hnosess]
  simp only [dispatchSession]
  rw [if_neg (by
    rintro ⟨-, hc⟩
    exact absurd hc (by decide))]
  have hfaq : faqReplies faq "" = [OutMsg.plain msgEnFallback] := by
    simp only [faqReplies]
    rw [find_faq_empty]
    rfl
  rw [hfaq]

/-- Witness for amended C5: a room message of the marker in capitals
with surrounding whitespace, sender without a session. -/
theorem C5_bare_marker_witness :
    preprocess ⟨"room", "U9", "  !HR  ", "tok"⟩ = some "" ∧
    handleEvent [] "" (fun _ => ⟨false, []⟩)
        [("U1", ⟨Step.Q_WAIT_DATE, some "2338", none, none, none⟩)]
        ⟨"room", "U9", "  !HR  ", "tok"⟩ =
      ⟨[("U1", ⟨Step.Q_WAIT_DATE, some "2338", none, none, none⟩)],
       [OutMsg.plain msgEnFallback], []⟩ :=
  C5_bare_marker_falls_through [] "" (fun _ => ⟨false, []⟩)
    [("U1", ⟨Step.Q_WAIT_DATE, some "2338", none, none, none⟩)]
    ⟨"room", "U9", "  !HR  ", "tok"⟩
    (by decide) (by decide) (by decide) (by decide)

set_option maxRecDepth 8192 in
/-- Claim C7 counterexample: a 301-character comment is accepted
verbatim at the comment step and stored unchanged in the session, which
then moves to confirmation - there is no 300-character maximum. -/
theorem C7_comment_over_300_accepted_counterexample :
    lookupS (handleEvent [] "" (fun _ => ⟨false, []⟩)
        [("U1", ⟨Step.Q_WAIT_COMMENT, some "2338", some "2026-03-31", some "Other", none⟩)]
        ⟨"user", "U1", ⟨List.replicate 301 'a'⟩, "tok"⟩).store "U1" =
      some ⟨Step.Q_CONFIRM, some "2338", some "2026-03-31", some "Other",
        some ⟨List.replicate 301 'a'⟩⟩ ∧
    300 < (⟨List.replicate 301 'a'⟩ : String).length := by
  constructor <;> decide

/-- Claim C7 amended: at the comment step free text of ANY length is
accepted verbatim as the comment (no maximum length exists), the four
none-equivalent tokens are normalized to the empty comment, and the
session moves to the confirmation step. -/
theorem C7_comment_any_length_accepted
    (faq : List FaqEntry) (hrAllow : String) (gw : Payload → GResult)
    (store : Store) (st : Session) (e : Event) (t sid qd rs : String)
    (hu : e.userId ≠ "")
    (hpre : preprocess e = some t)
    (hsess : lookupS store e.userId = some st)
    (hstep : st.step = Step.Q_WAIT_COMMENT)
    (hsid : st.staff_id = some sid) (hqd : st.quitting_date = some qd)
    (hrs : st.reason = some rs)
    (hcw : is_cancel_word t = false) (hadm : adminPrefixed t = false)
    (hcf : is_cancel_flow_trigger t = false) (hqt : is_quit_trigger t = false) :
    handleEvent faq hrAllow gw store e =
      ⟨setS store e.userId { st with comment := some (commentOf t), step := Step.Q_CONFIRM },
       [OutMsg.quick (confirmSummaryC sid qd rs (commentOf t))
          ["送信（Submit）", "キャンセル（Cancel）"]], []⟩ ∧
    ((pyLower t ≠ "none" ∧ pyLower t ≠ "なし" ∧ pyLower t ≠ "無し" ∧ pyLower t ≠ "no") →
      commentOf t = t) := by
  constructor
  · unfold handleEvent
    rw [hpre]
    show route faq hrAllow gw store e.userId t = _
    unfold route
    rw [if_neg (by
        rintro ⟨-, -, hc⟩
        rw [hcw] at hc
        cases hc),
      if_neg (by
        rw [hadm]
        exact Bool.false_ne_true),
      if_neg (by
        rintro ⟨-, hc⟩
        rw [hcf] at hc
        cases hc),
      hsess]
    simp only [dispatchSession]
    rw [if_neg (by
        rintro ⟨-, hc⟩
        rw [hstep] at hc
        cases hc),
      if_neg (by
        rintro ⟨-, hc⟩
        rw [hstep] at hc
        cases hc),
      if_neg (by
        rintro ⟨-, hc⟩
        rw [hqt] at hc
        cases hc),
      if_pos hu, hstep]
    simp only [stepHandler]
    rw [hsid, hqd, hrs]
    rfl
  · rintro ⟨h1, h2, h3, h4⟩
    simp only [commentOf]
    rw [if_neg (by
      simp only [Bool.or_eq_true, beq_iff_eq]
      rintro (((hc | hc) | hc) | hc)
      · exact h1 hc
      · exact h2 hc
      · exact h3 hc
      · exact h4 hc)]

/-- Witness for amended C7: an ordinary free-text comment at the
comment step is stored verbatim. -/
theorem C7_comment_any_length_witness :
    handleEvent [] "" (fun _ => ⟨false, []⟩)
        [("U4", ⟨Step.Q_WAIT_COMMENT, some "9001", some "2026-06-30", some "Other", none⟩)]
        ⟨"user", "U4", "personal situation", "tok"⟩ =
      ⟨setS [("U4", ⟨Step.Q_WAIT_COMMENT, some "9001", some "2026-06-30", some "Other", none⟩)]
         "U4" ⟨Step.Q_CONFIRM, some "9001", some "2026-06-30", some "Other",
           some (commentOf "personal situation")⟩,
       [OutMsg.quick (confirmSummaryC "9001" "2026-06-30" "Other" (commentOf "personal situation"))
          ["送信（Submit）", "キャンセル（Cancel）"]], []⟩ ∧
    ((pyLower "personal situation" ≠ "none" ∧ pyLower "personal situation" ≠ "なし" ∧
      pyLower "personal situation" ≠ "無し" ∧ pyLower "personal situation" ≠ "no") →
      commentOf "personal situation" = "personal situation") :=
  C7_comment_any_length_accepted [] "" (fun _ => ⟨false, []⟩)
    [("U4", ⟨Step.Q_WAIT_COMMENT, some "9001", some "2026-06-30", some "Other", none⟩)]
    ⟨Step.Q_WAIT_COMMENT, some "9001", some "2026-06-30", some "Other", none⟩
    ⟨"user", "U4", "personal situation", "tok"⟩
    "personal situation" "9001" "2026-06-30" "Other"
    (by decide) (by decide) (by decide) (by decide) (by decide) (by decide)
    (by decide) (by decide) (by decide) (by decide) (by decide)

/-- Claim C9 counterexample: when the gateway success response carries
the identifier under the key id - the shape the specification gives -
the final reply does NOT contain R1: the handler reads the key
requestId and renders an empty receipt number. -/
theorem C9_spec_id_key_not_rendered_counterexample :
    (handleEvent [] "" (fun _ => ⟨true, [("id", "R1")]⟩)
        [("U1", ⟨Step.Q_CONFIRM, some "2338", some "2026-03-31", some "Job change", some ""⟩)]
        ⟨"user", "U1", "送信（Submit）", "tok"⟩).replies =
      [OutMsg.plain (msgSubmitOk "")] ∧
    substrOf "R1" (msgSubmitOk "") = false := by
  constructor <;> decide

/-- Claim C9 amended: the receipt identifier is read from the response
key requestId (not id): when the gateway success response carries
requestId R1, the final acknowledgment reply contains R1. -/
theorem C9_success_reply_contains_requestId
    (faq : List FaqEntry) (hrAllow : String) (gw : Payload → GResult)
    (store : Store) (st : Session) (e : Event)
    (hu : e.userId ≠ "")
    (hpre : preprocess e = some "送信（Submit）")
    (hsess : lookupS store e.userId = some st)
    (hstep : st.step = Step.Q_CONFIRM)
    (hok : (gw (submitPayload e.userId st)).ok = true)
    (hrid : (gw (submitPayload e.userId st)).getS "requestId" "" = "R1") :
    (handleEvent faq hrAllow gw store e).replies = [OutMsg.plain (msgSubmitOk "R1")] ∧
    substrOf "R1" (msgSubmitOk "R1") = true := by
  constructor
  · rw [submit_confirm_eval faq hrAllow gw store st e hu hpre hsess hstep]
    show [OutMsg.plain (if (gw (submitPayload e.userId st)).ok
        then msgSubmitOk ((gw (submitPayload e.userId st)).getS "requestId" "")
        else msgSubmitFail)] = _
    rw [hok, hrid]
    rfl
  · decide

/-- Witness for amended C9: a success response keyed requestId. -/
theorem C9_success_reply_witness :
    (handleEvent [] "" (fun _ => ⟨true, [("requestId", "R1")]⟩)
        [("U1", ⟨Step.Q_CONFIRM, some "2338", some "2026-03-31", some "Job change", some ""⟩)]
        ⟨"user", "U1", "送信（Submit）", "tok"⟩).replies =
      [OutMsg.plain (msgSubmitOk "R1")] ∧
    substrOf "R1" (msgSubmitOk "R1") = true :=
  C9_success_reply_contains_requestId [] "" (fun _ => ⟨true, [("requestId", "R1")]⟩)
    [("U1", ⟨Step.Q_CONFIRM, some "2338", some "2026-03-31", some "Job change", some ""⟩)]
    ⟨Step.Q_CONFIRM, some "2338", some "2026-03-31", some "Job change", some ""⟩
    ⟨"user", "U1", "送信（Submit）", "tok"⟩
    (by decide) (by decide) (by decide) rfl rfl rfl
